import Mathlib

/-!
Shallow embedding of the Nix bytecode interpreter (src/nix.c) and a
verification of the frozen claims about it.

Modelling conventions:
* C machine integers are `Nat` with explicit reductions: `size_t` values are
  kept below `2 ^ 64`, `uint32_t` casts are `% 2 ^ 32`, and so on.
* The operand stack is a `List RuntimeValue` whose head is the top of the
  stack (C index `stack_size - 1`).
* A fallible C helper (one that can hit `PANIC_ON_ERR` and `exit(1)`) is a
  function into `FnResult`; undefined behaviour in the C source (out-of-bounds
  access, dereferencing a freed/NULL buffer) is the dedicated outcome
  `FnResult.ub`, distinct from every reported error code.
* `main` zero-initialises the whole `ProgramState` with `memset`, so reads of
  the fixed-capacity arrays beyond the logical size see zero bytes; we model
  such reads with `getD` and a zeroed default.
-/

namespace Nix

/-- STACK_CAP from nix.c (capacity of the operand stack and of the heap table). -/
def STACK_CAP : Nat := 256

/-- STACKFRAME_CAP from nix.c (capacity of the variable environment). -/
def STACKFRAME_CAP : Nat := 512

/-- PROGRAM_CAP from nix.c (capacity of the program array and macro table). -/
def PROGRAM_CAP : Nat := 2048

/-- MAX_STRING_LEN from nix.c (element stride of string heap slots). -/
def MAX_STRING_LEN : Nat := 1024

/-- Modulus of the 64-bit C type size_t. -/
def U64 : Nat := 2 ^ 64

/-- Modulus of uint32_t. -/
def U32 : Nat := 2 ^ 32

/-- Modulus of unsigned char. -/
def U8 : Nat := 2 ^ 8

/-- The opcode enumeration `Instruction` of nix.c, in source order.  The four
macro-related opcodes are spelled INST_MACRO_OP, INST_MACRO_DEF,
INST_MACRO_END, INST_MACRO_USAGE here (source: INST_MACRO, INST_MACRO_DEF,
INST_END_MACRO, INST_MACRO_USAGE). -/
inductive Inst where
  | INST_STACK_PUSH
  | INST_STACK_PREV
  | INST_STACK_POP
  | INST_PLUS
  | INST_MINUS
  | INST_MUL
  | INST_DIV
  | INST_MOD
  | INST_EQ
  | INST_NEQ
  | INST_GT
  | INST_LT
  | INST_GEQ
  | INST_LEQ
  | INST_LOGICAL_AND
  | INST_LOGICAL_OR
  | INST_IF
  | INST_ELSE
  | INST_ELIF
  | INST_THEN
  | INST_ENDIF
  | INST_WHILE
  | INST_RUN_WHILE
  | INST_END_WHILE
  | INST_PRINT
  | INST_PRINTLN
  | INST_JUMP
  | INST_ADD_VAR_TO_STACKFRAME
  | INST_ASSIGN
  | INST_VAR_USAGE
  | INST_VAR_REASSIGN
  | INST_HEAP_ALLOC
  | INST_HEAP_FREE
  | INST_PTR_GET_I
  | INST_PTR_SET_I
  | INST_INT_TYPE
  | INST_FLOAT_TYPE
  | INST_DOUBLE_TYPE
  | INST_CHAR_TYPE
  | INST_STR_TYPE
  | INST_MACRO_OP
  | INST_MACRO_DEF
  | INST_MACRO_END
  | INST_MACRO_USAGE
  | INST_FUNC_DEF
  | INST_FUNC_CALL
  | INST_FUNC_RET
  | INST_STRUCT_DEF
  | INST_STRUCT_INIT
  | INST_STRUCT_ACCESS
  | INST_TABLE_CREATE
  | INST_TABLE_INSERT
  | INST_TABLE_SELECT
  | INST_TABLE_UPDATE
  | INST_TABLE_DELETE
  | INST_SQL_QUERY
  | INST_CONCAT_STR
  | INST_CHART_PLOT
  | INST_EXPORT_DATA
  | INST_STAT_MEAN
  | INST_STAT_MEDIAN
  | INST_STAT_MODE
  | INST_STAT_STD_DEV
  | INST_REGRESSION
  | INST_CLUSTER
  | INST_TIME_SERIES
  | INST_API_REQUEST
  | INST_DB_CONNECT
  | INST_DB_QUERY
  | INST_ETL_EXTRACT
  | INST_ETL_TRANSFORM
  | INST_ETL_LOAD
  | INST_DATA_VALIDATE
  | INST_SCRIPT_EXECUTE
  | INST_JOB_SCHEDULE
  | INST_CUSTOM_AGGREGATE
  | INST_CUSTOM_TRANSFORM
  | INST_PARALLEL_EXEC
  | INST_ASYNC_EXEC
  | INST_ACCESS_CONTROL
  | INST_ENCRYPT_DATA
deriving DecidableEq, Repr

/-- The `VariableType` enumeration of nix.c. -/
inductive VariableType where
  | VAR_TYPE_INT
  | VAR_TYPE_FLOAT
  | VAR_TYPE_DOUBLE
  | VAR_TYPE_CHAR
  | VAR_TYPE_STR
  | VAR_TYPE_TABLE
  | VAR_TYPE_STRUCT
deriving DecidableEq, Repr

/-- The `Error` enumeration of nix.c (the error kinds the core can report). -/
inductive Error where
  | ERR_STACK_OVERFLOW
  | ERR_STACK_UNDERFLOW
  | ERR_INVALID_JUMP
  | ERR_INVALID_STACK_ACCESS
  | ERR_INVALID_DATA_TYPE
  | ERR_ILLEGAL_INSTRUCTION
  | ERR_SYNTAX_ERROR
  | ERR_INVALID_PTR
deriving DecidableEq, Repr

/-- `RuntimeValue` of nix.c: one `size_t` payload field shared by every tag,
plus the type tag and the heap-reference flag. -/
structure RuntimeValue where
  data : Nat
  var_type : VariableType
  heap_ptr : Bool
deriving DecidableEq, Repr

/-- The zero `RuntimeValue` (what `memset` leaves in untouched slots). -/
def zeroVal : RuntimeValue := ⟨0, .VAR_TYPE_INT, false⟩

/-- `HeapValue` of nix.c: one slot of the heap table.  `data = none` models a
NULL buffer pointer (slot freed, or never allocated); an occupied slot owns a
buffer of element cells, each stored as the bit pattern / value the C code
keeps in it. -/
structure HeapValue where
  data : Option (List Nat)
  var_type : VariableType
deriving DecidableEq, Repr

/-- `Token` of nix.c: an opcode with its inline `RuntimeValue`. -/
structure Token where
  inst : Inst
  val : RuntimeValue
deriving DecidableEq, Repr

/-- The all-zero token (`memset` image of the program array past
`program_size`; opcode 0 is INST_STACK_PUSH). -/
def zeroTok : Token := ⟨.INST_STACK_PUSH, zeroVal⟩

/-- `StackFrameValue` of nix.c: one binding of the variable environment. -/
structure StackFrameValue where
  val : RuntimeValue
  frame_index : Nat
deriving DecidableEq, Repr

/-- One rendered print event: the tag and raw payload handed to `printf`,
plus whether a newline is appended (INST_PRINTLN). -/
structure OutEvent where
  var_type : VariableType
  data : Nat
  newline : Bool
deriving DecidableEq, Repr

/-- `ProgramState` of nix.c, restricted to the fields the dispatch loop uses.
`mpositions` models the `macro_positions`/`macro_count` pair.  The operand
stack list has its head at the top. -/
structure ProgramState where
  stack : List RuntimeValue
  heap : List HeapValue
  stackframe : List StackFrameValue
  mpositions : List Nat
  found_solution_for_if_block : Bool
  program : List Token
  inst_ptr : Nat
  output : List OutEvent
deriving DecidableEq, Repr

/-- Result of one C helper call: a value, an error report followed by
`exit(1)`, or undefined behaviour in the source. -/
inductive FnResult (α : Type) where
  | ok (a : α)
  | err (e : Error)
  | ub
deriving DecidableEq, Repr

/-- Sequencing of fallible helper calls, mirroring C control flow where any
`PANIC_ON_ERR` aborts the run. -/
def FnResult.bind {α β : Type} : FnResult α → (α → FnResult β) → FnResult β
  | .ok a, f => f a
  | .err e, _ => .err e
  | .ub, _ => .ub

/-- Sign extension of a 32-bit pattern to the 64-bit `size_t` value the C code
obtains from `(size_t)(int)x` (gcc: conversion to `int` wraps). -/
def sext32 (p : Nat) : Nat := if p < 2 ^ 31 then p else p + (U64 - U32)

/-- Sign extension of an 8-bit pattern to 64 bits, for `(size_t)(char)x`
(plain char is signed under the gcc build of the source). -/
def sext8 (p : Nat) : Nat := if p < 2 ^ 7 then p else p + (U64 - U8)

/-- Value a nonnegative integer rounds to when converted to a floating-point
format with `sig` significand bits (IEEE round-to-nearest-even); used for the
C conversions `(float)x` / `(double)x` on `size_t` operands. -/
def roundToBits (sig n : Nat) : Nat :=
  if n < 2 ^ sig then n
  else
    let k := Nat.log2 n + 1 - sig
    let q := n / 2 ^ k
    let r := n % 2 ^ k
    let half := 2 ^ (k - 1)
    if half < r ∨ (r = half ∧ q % 2 = 1) then (q + 1) * 2 ^ k else q * 2 ^ k

/-- Meaning of `(size_t)(*(float *)&bits)` in INST_FLOAT_TYPE: decode the low
32 bits as an IEEE-754 single and truncate toward zero into `size_t`.
`none` marks the conversions that are undefined behaviour in C (NaN or
infinity, negative values that do not truncate to zero, results `≥ 2 ^ 64`). -/
def f32_to_u64 (bits : Nat) : Option Nat :=
  let s := bits / 2 ^ 31 % 2
  let e := bits / 2 ^ 23 % 2 ^ 8
  let m := bits % 2 ^ 23
  if e = 255 then none
  else
    let mag : Nat :=
      if e = 0 then 0
      else if 150 ≤ e then (2 ^ 23 + m) * 2 ^ (e - 150)
      else (2 ^ 23 + m) / 2 ^ (150 - e)
    if s = 1 then (if mag = 0 then some 0 else none)
    else if U64 ≤ mag then none
    else some mag

/-- Meaning of `(size_t)(*(double *)&bits)` in INST_DOUBLE_TYPE (IEEE-754
double, truncation toward zero; `none` is undefined behaviour). -/
def f64_to_u64 (bits : Nat) : Option Nat :=
  let s := bits / 2 ^ 63 % 2
  let e := bits / 2 ^ 52 % 2 ^ 11
  let m := bits % 2 ^ 52
  if e = 2047 then none
  else
    let mag : Nat :=
      if e = 0 then 0
      else if 1075 ≤ e then (2 ^ 52 + m) * 2 ^ (e - 1075)
      else (2 ^ 52 + m) / 2 ^ (1075 - e)
    if s = 1 then (if mag = 0 then some 0 else none)
    else if U64 ≤ mag then none
    else some mag

/-- `stack_pop` of nix.c: underflow check, then the former top.  The returned
pair is (popped value, remaining stack). -/
def stack_pop (st : List RuntimeValue) : FnResult (RuntimeValue × List RuntimeValue) :=
  match st with
  | [] => .err .ERR_STACK_UNDERFLOW
  | v :: rest => .ok (v, rest)

/-- `stack_push` of nix.c: the overflow check is `stack_size == STACK_CAP`;
pushing onto an even larger stack would write out of bounds (ub). -/
def stack_push (st : List RuntimeValue) (v : RuntimeValue) : FnResult (List RuntimeValue) :=
  if st.length = STACK_CAP then .err .ERR_STACK_OVERFLOW
  else if STACK_CAP < st.length then .ub
  else .ok (v :: st)

/-- `stack_peak` of nix.c: `stack[stack_size - index - 1]`, i.e. the
`index`-th element from the top, after the `stack_size <= index` check. -/
def stack_peak (st : List RuntimeValue) (index : Nat) : FnResult RuntimeValue :=
  if h : index < st.length then .ok (st.get ⟨index, h⟩)
  else .err .ERR_INVALID_STACK_ACCESS

/-- Element count of the freshly malloc'd buffer in `heap_alloc`: every
numeric/char type gets `malloc(sizeof(T))` — room for exactly ONE element —
and only VAR_TYPE_STR uses the requested `size` (bytes).  Other tags hit the
`default` arm. -/
def heap_elem_count (var_type : VariableType) (size : Nat) : FnResult Nat :=
  match var_type with
  | .VAR_TYPE_INT => .ok 1
  | .VAR_TYPE_FLOAT => .ok 1
  | .VAR_TYPE_DOUBLE => .ok 1
  | .VAR_TYPE_CHAR => .ok 1
  | .VAR_TYPE_STR => .ok size
  | _ => .err .ERR_INVALID_DATA_TYPE

/-- `heap_alloc` of nix.c: capacity check against STACK_CAP, buffer creation
(fresh cells modelled as zero), push of the reference value, then the slot is
appended.  Returns (new heap, new stack). -/
def heap_alloc (heap : List HeapValue) (st : List RuntimeValue)
    (var_type : VariableType) (size : Nat) :
    FnResult (List HeapValue × List RuntimeValue) :=
  if heap.length = STACK_CAP then .err .ERR_STACK_OVERFLOW
  else
    (heap_elem_count var_type size).bind fun n =>
    (stack_push st ⟨heap.length, .VAR_TYPE_INT, true⟩).bind fun st' =>
    .ok (heap ++ [⟨some (List.replicate n 0), var_type⟩], st')

/-- `heap_free` of nix.c: rejects non-references and out-of-range indices with
ERR_INVALID_PTR, then does `free(data); data = NULL`.  There is NO check that
the slot is still occupied: on an already-freed slot this is `free(NULL)` — a
silent no-op — and the slot stays freed. -/
def heap_free (heap : List HeapValue) (ptr_val : RuntimeValue) : FnResult (List HeapValue) :=
  if ptr_val.heap_ptr = false then .err .ERR_INVALID_PTR
  else
    let i := ptr_val.data % U32
    if heap.length ≤ i then .err .ERR_INVALID_PTR
    else .ok (heap.set i { heap.getD i ⟨none, .VAR_TYPE_INT⟩ with data := none })

/-- `ptr_get_i` of nix.c: reference and range checks, then an UNCHECKED read
of element `index` from the slot's buffer.  A freed slot has `data == NULL`,
so the read dereferences NULL (ub); an index beyond the malloc'd element
count reads out of bounds (ub).  For string slots the C code pushes the
address `&str_data[index * MAX_STRING_LEN]`, modelled here as that byte
offset. -/
def ptr_get_i (heap : List HeapValue) (st : List RuntimeValue)
    (ptr_val : RuntimeValue) (index : Nat) : FnResult (List RuntimeValue) :=
  if ptr_val.heap_ptr = false then .err .ERR_INVALID_PTR
  else
    let i := ptr_val.data % U32
    if heap.length ≤ i then .err .ERR_INVALID_PTR
    else
      let hv := heap.getD i ⟨none, .VAR_TYPE_INT⟩
      match hv.data with
      | none => .ub
      | some buf =>
        match hv.var_type with
        | .VAR_TYPE_INT =>
          if h : index < buf.length then
            stack_push st ⟨sext32 (buf.get ⟨index, h⟩), .VAR_TYPE_INT, false⟩
          else .ub
        | .VAR_TYPE_FLOAT =>
          if h : index < buf.length then
            if U64 ≤ buf.get ⟨index, h⟩ then .ub
            else stack_push st ⟨buf.get ⟨index, h⟩, .VAR_TYPE_FLOAT, false⟩
          else .ub
        | .VAR_TYPE_DOUBLE =>
          if h : index < buf.length then
            if U64 ≤ buf.get ⟨index, h⟩ then .ub
            else stack_push st ⟨buf.get ⟨index, h⟩, .VAR_TYPE_DOUBLE, false⟩
          else .ub
        | .VAR_TYPE_CHAR =>
          if h : index < buf.length then
            stack_push st ⟨sext8 (buf.get ⟨index, h⟩), .VAR_TYPE_CHAR, false⟩
          else .ub
        | .VAR_TYPE_STR =>
          stack_push st ⟨index * MAX_STRING_LEN, .VAR_TYPE_STR, false⟩
        | _ => .err .ERR_INVALID_DATA_TYPE

/-- `ptr_set_i` of nix.c: reference and range checks, then an UNCHECKED write
of element `index` (ub on a freed slot or past the malloc'd element count).
Numeric cells store the converted pattern the C code writes
(`(int)`, `(float)`, `(double)`, `(char)` of the `size_t` payload); string
writes `strcpy` into `&str_data[index * MAX_STRING_LEN]` — only the bounds
are tracked, the copied bytes are not observable in this model. -/
def ptr_set_i (heap : List HeapValue) (ptr_val : RuntimeValue)
    (index : Nat) (new_val : RuntimeValue) : FnResult (List HeapValue) :=
  if ptr_val.heap_ptr = false then .err .ERR_INVALID_PTR
  else
    let i := ptr_val.data % U32
    if heap.length ≤ i then .err .ERR_INVALID_PTR
    else
      let hv := heap.getD i ⟨none, .VAR_TYPE_INT⟩
      match hv.data with
      | none => .ub
      | some buf =>
        match hv.var_type with
        | .VAR_TYPE_INT =>
          if index < buf.length then
            .ok (heap.set i { hv with data := some (buf.set index (new_val.data % U32)) })
          else .ub
        | .VAR_TYPE_FLOAT =>
          if index < buf.length then
            .ok (heap.set i { hv with data := some (buf.set index (roundToBits 24 new_val.data)) })
          else .ub
        | .VAR_TYPE_DOUBLE =>
          if index < buf.length then
            .ok (heap.set i { hv with data := some (buf.set index (roundToBits 53 new_val.data)) })
          else .ub
        | .VAR_TYPE_CHAR =>
          if index < buf.length then
            .ok (heap.set i { hv with data := some (buf.set index (new_val.data % U8)) })
          else .ub
        | .VAR_TYPE_STR =>
          if index * MAX_STRING_LEN < buf.length then .ok (heap.set i hv)
          else .ub
        | _ => .err .ERR_INVALID_DATA_TYPE

/-- Token read `program[i]` — inside the PROGRAM_CAP array, zeroed by the
`memset` in `main` past `program_size`. -/
def readTok (prog : List Token) (i : Nat) : Token := prog.getD i zeroTok

/-- The forward scan performed by INST_IF / INST_ELSE / INST_ELIF on a false
condition (`for (i = inst_ptr; i < program_size; i++)` with the `uint32_t`
counter): each ELSE/ELIF/ENDIF decrements, each IF/ELIF increments (so an
ELIF nets zero), and the scan stops where the counter equals `(uint32_t)-1`,
returning `i + 1`.  `none` means the loop ran off the end without matching
(`inst_ptr` is then left unchanged).  The `fuel` argument only bounds the
recursion and is called with more steps than the loop can take. -/
def if_scan (prog : List Token) : Nat → Nat → Nat → Option Nat
  | 0, _, _ => none
  | fuel + 1, i, count =>
    if i < prog.length then
      let inst := (readTok prog i).inst
      let c1 := if inst = .INST_ELSE ∨ inst = .INST_ELIF ∨ inst = .INST_ENDIF then
          (count + U32 - 1) % U32 else count
      let c2 := if inst = .INST_IF ∨ inst = .INST_ELIF then (c1 + 1) % U32 else c1
      if c2 = U32 - 1 then some (i + 1) else if_scan prog fuel (i + 1) c2
    else none

/-- The BACKWARD scan performed by INST_WHILE (false condition) and
INST_END_WHILE (`for (i = inst_ptr; i >= 0; i--)`): each
END_WHILE/WHILE/RUN_WHILE decrements, each WHILE increments back (netting
zero), and the scan stops where the `uint32_t` counter equals `(uint32_t)-1`,
returning `i + 1`; `none` when `i` runs below zero.  Call with
`fuel = i + 1`. -/
def while_scan (prog : List Token) : Nat → Nat → Nat → Option Nat
  | 0, _, _ => none
  | fuel + 1, i, count =>
    let inst := (readTok prog i).inst
    let c1 := if inst = .INST_END_WHILE ∨ inst = .INST_WHILE ∨ inst = .INST_RUN_WHILE then
        (count + U32 - 1) % U32 else count
    let c2 := if inst = .INST_WHILE then (c1 + 1) % U32 else c1
    if c2 = U32 - 1 then some (i + 1)
    else
      match i with
      | 0 => none
      | j + 1 => while_scan prog fuel j c2

/-- INST_PLUS per-tag arithmetic: every numeric case adds the raw `size_t`
payload fields (the source stores floats/doubles through the same integer
field); strings are rejected, as are table/struct tags.  The `result` local
of the C code is built with `heap_ptr` unset; `main`'s zeroed memory makes it
false in practice, which is what we model. -/
def exec_plus (v1 v2 : RuntimeValue) : FnResult RuntimeValue :=
  match v1.var_type with
  | .VAR_TYPE_INT => .ok ⟨(v1.data + v2.data) % U64, .VAR_TYPE_INT, false⟩
  | .VAR_TYPE_FLOAT => .ok ⟨(v1.data + v2.data) % U64, .VAR_TYPE_FLOAT, false⟩
  | .VAR_TYPE_DOUBLE => .ok ⟨(v1.data + v2.data) % U64, .VAR_TYPE_DOUBLE, false⟩
  | .VAR_TYPE_CHAR => .ok ⟨(v1.data + v2.data) % U64, .VAR_TYPE_CHAR, false⟩
  | _ => .err .ERR_INVALID_DATA_TYPE

/-- INST_MINUS per-tag arithmetic (unsigned 64-bit wraparound). -/
def exec_minus (v1 v2 : RuntimeValue) : FnResult RuntimeValue :=
  match v1.var_type with
  | .VAR_TYPE_INT => .ok ⟨(v1.data + U64 - v2.data % U64) % U64, .VAR_TYPE_INT, false⟩
  | .VAR_TYPE_FLOAT => .ok ⟨(v1.data + U64 - v2.data % U64) % U64, .VAR_TYPE_FLOAT, false⟩
  | .VAR_TYPE_DOUBLE => .ok ⟨(v1.data + U64 - v2.data % U64) % U64, .VAR_TYPE_DOUBLE, false⟩
  | .VAR_TYPE_CHAR => .ok ⟨(v1.data + U64 - v2.data % U64) % U64, .VAR_TYPE_CHAR, false⟩
  | _ => .err .ERR_INVALID_DATA_TYPE

/-- INST_MUL per-tag arithmetic. -/
def exec_mul (v1 v2 : RuntimeValue) : FnResult RuntimeValue :=
  match v1.var_type with
  | .VAR_TYPE_INT => .ok ⟨(v1.data * v2.data) % U64, .VAR_TYPE_INT, false⟩
  | .VAR_TYPE_FLOAT => .ok ⟨(v1.data * v2.data) % U64, .VAR_TYPE_FLOAT, false⟩
  | .VAR_TYPE_DOUBLE => .ok ⟨(v1.data * v2.data) % U64, .VAR_TYPE_DOUBLE, false⟩
  | .VAR_TYPE_CHAR => .ok ⟨(v1.data * v2.data) % U64, .VAR_TYPE_CHAR, false⟩
  | _ => .err .ERR_INVALID_DATA_TYPE

/-- INST_DIV per-tag arithmetic: every case first checks `val2.data == 0`
(ERR_INVALID_DATA_TYPE), then divides the raw unsigned payload fields. -/
def exec_div (v1 v2 : RuntimeValue) : FnResult RuntimeValue :=
  match v1.var_type with
  | .VAR_TYPE_INT =>
    if v2.data = 0 then .err .ERR_INVALID_DATA_TYPE
    else .ok ⟨v1.data / v2.data, .VAR_TYPE_INT, false⟩
  | .VAR_TYPE_FLOAT =>
    if v2.data = 0 then .err .ERR_INVALID_DATA_TYPE
    else .ok ⟨v1.data / v2.data, .VAR_TYPE_FLOAT, false⟩
  | .VAR_TYPE_DOUBLE =>
    if v2.data = 0 then .err .ERR_INVALID_DATA_TYPE
    else .ok ⟨v1.data / v2.data, .VAR_TYPE_DOUBLE, false⟩
  | .VAR_TYPE_CHAR =>
    if v2.data = 0 then .err .ERR_INVALID_DATA_TYPE
    else .ok ⟨v1.data / v2.data, .VAR_TYPE_CHAR, false⟩
  | _ => .err .ERR_INVALID_DATA_TYPE

/-- INST_MOD: the zero check comes before the tag switch; float/double modulo
is rejected. -/
def exec_mod (v1 v2 : RuntimeValue) : FnResult RuntimeValue :=
  if v2.data = 0 then .err .ERR_INVALID_DATA_TYPE
  else
    match v1.var_type with
    | .VAR_TYPE_INT => .ok ⟨v1.data % v2.data, .VAR_TYPE_INT, false⟩
    | .VAR_TYPE_CHAR => .ok ⟨v1.data % v2.data, .VAR_TYPE_CHAR, false⟩
    | _ => .err .ERR_INVALID_DATA_TYPE

/-- Shared shape of INST_GT / INST_LT / INST_GEQ / INST_LEQ: the four
source cases are identical per opcode, comparing the raw unsigned payload
fields and producing an integer 0/1; table/struct/str tags are rejected. -/
def exec_cmp (v1 v2 : RuntimeValue) (cmp : Nat → Nat → Bool) : FnResult RuntimeValue :=
  match v1.var_type with
  | .VAR_TYPE_INT => .ok ⟨if cmp v1.data v2.data then 1 else 0, .VAR_TYPE_INT, false⟩
  | .VAR_TYPE_FLOAT => .ok ⟨if cmp v1.data v2.data then 1 else 0, .VAR_TYPE_INT, false⟩
  | .VAR_TYPE_DOUBLE => .ok ⟨if cmp v1.data v2.data then 1 else 0, .VAR_TYPE_INT, false⟩
  | .VAR_TYPE_CHAR => .ok ⟨if cmp v1.data v2.data then 1 else 0, .VAR_TYPE_INT, false⟩
  | _ => .err .ERR_INVALID_DATA_TYPE

/-- INST_PRINT / INST_PRINTLN rendering: all five value tags are printable
(the event records the tag and raw payload handed to printf); table/struct
hit the `default` arm. -/
def print_value (v : RuntimeValue) (newline : Bool) : FnResult OutEvent :=
  match v.var_type with
  | .VAR_TYPE_INT => .ok ⟨v.var_type, v.data, newline⟩
  | .VAR_TYPE_FLOAT => .ok ⟨v.var_type, v.data, newline⟩
  | .VAR_TYPE_DOUBLE => .ok ⟨v.var_type, v.data, newline⟩
  | .VAR_TYPE_CHAR => .ok ⟨v.var_type, v.data, newline⟩
  | .VAR_TYPE_STR => .ok ⟨v.var_type, v.data, newline⟩
  | _ => .err .ERR_INVALID_DATA_TYPE

/-- Overwrite binding `i` of the variable environment with value `v`,
keeping its `frame_index`. -/
def frame_write (sf : List StackFrameValue) (i : Nat) (v : RuntimeValue) :
    List StackFrameValue :=
  sf.set i { sf.getD i ⟨zeroVal, 0⟩ with val := v }

/-- Read `stackframe[i]`: within the tracked environment it is the binding;
between the logical size and STACKFRAME_CAP it is the zeroed array slot left
by `memset`; beyond the array it is an out-of-bounds read. -/
def frame_read (sf : List StackFrameValue) (i : Nat) : FnResult RuntimeValue :=
  if h : i < sf.length then .ok (sf.get ⟨i, h⟩).val
  else if i < STACKFRAME_CAP then .ok zeroVal
  else .ub

/-- Splice the low 32 bits of `newData` into `old`, for the C writes
`*(float *)&dst = *(float *)&src` that copy only 4 of the 8 payload bytes. -/
def splice32 (old newData : Nat) : Nat := old / U32 * U32 + newData % U32

/-- One execution of the body of the dispatch `switch` on token `tok`.  The
state `s` passed in already has `inst_ptr` pointing one past the fetched
opcode (the `state->program[state->inst_ptr++]` fetch), which is why the
operand reads below use `readTok s.program s.inst_ptr`.  The trailing
`state->inst_ptr++` of the loop body is applied by `execStep`, not here. -/
def exec_inst (tok : Token) (s : ProgramState) : FnResult ProgramState :=
  match tok.inst with
  | .INST_STACK_PUSH =>
    (stack_push s.stack tok.val).bind fun st => .ok { s with stack := st }
  | .INST_STACK_PREV =>
    (stack_peak s.stack 0).bind fun v =>
    (stack_push s.stack v).bind fun st => .ok { s with stack := st }
  | .INST_STACK_POP =>
    (stack_pop s.stack).bind fun p => .ok { s with stack := p.2 }
  | .INST_PLUS =>
    (stack_pop s.stack).bind fun p2 =>
    (stack_pop p2.2).bind fun p1 =>
    (exec_plus p1.1 p2.1).bind fun r =>
    (stack_push p1.2 r).bind fun st => .ok { s with stack := st }
  | .INST_MINUS =>
    (stack_pop s.stack).bind fun p2 =>
    (stack_pop p2.2).bind fun p1 =>
    (exec_minus p1.1 p2.1).bind fun r =>
    (stack_push p1.2 r).bind fun st => .ok { s with stack := st }
  | .INST_MUL =>
    (stack_pop s.stack).bind fun p2 =>
    (stack_pop p2.2).bind fun p1 =>
    (exec_mul p1.1 p2.1).bind fun r =>
    (stack_push p1.2 r).bind fun st => .ok { s with stack := st }
  | .INST_DIV =>
    (stack_pop s.stack).bind fun p2 =>
    (stack_pop p2.2).bind fun p1 =>
    (exec_div p1.1 p2.1).bind fun r =>
    (stack_push p1.2 r).bind fun st => .ok { s with stack := st }
  | .INST_MOD =>
    (stack_pop s.stack).bind fun p2 =>
    (stack_pop p2.2).bind fun p1 =>
    (exec_mod p1.1 p2.1).bind fun r =>
    (stack_push p1.2 r).bind fun st => .ok { s with stack := st }
  | .INST_EQ =>
    (stack_pop s.stack).bind fun p2 =>
    (stack_pop p2.2).bind fun p1 =>
    (stack_push p1.2 ⟨if p1.1.data = p2.1.data then 1 else 0, .VAR_TYPE_INT, false⟩).bind
      fun st => .ok { s with stack := st }
  | .INST_NEQ =>
    (stack_pop s.stack).bind fun p2 =>
    (stack_pop p2.2).bind fun p1 =>
    (stack_push p1.2 ⟨if p1.1.data = p2.1.data then 0 else 1, .VAR_TYPE_INT, false⟩).bind
      fun st => .ok { s with stack := st }
  | .INST_GT =>
    (stack_pop s.stack).bind fun p2 =>
    (stack_pop p2.2).bind fun p1 =>
    (exec_cmp p1.1 p2.1 (fun a b => b < a)).bind fun r =>
    (stack_push p1.2 r).bind fun st => .ok { s with stack := st }
  | .INST_LT =>
    (stack_pop s.stack).bind fun p2 =>
    (stack_pop p2.2).bind fun p1 =>
    (exec_cmp p1.1 p2.1 (fun a b => a < b)).bind fun r =>
    (stack_push p1.2 r).bind fun st => .ok { s with stack := st }
  | .INST_GEQ =>
    (stack_pop s.stack).bind fun p2 =>
    (stack_pop p2.2).bind fun p1 =>
    (exec_cmp p1.1 p2.1 (fun a b => b ≤ a)).bind fun r =>
    (stack_push p1.2 r).bind fun st => .ok { s with stack := st }
  | .INST_LEQ =>
    (stack_pop s.stack).bind fun p2 =>
    (stack_pop p2.2).bind fun p1 =>
    (exec_cmp p1.1 p2.1 (fun a b => a ≤ b)).bind fun r =>
    (stack_push p1.2 r).bind fun st => .ok { s with stack := st }
  | .INST_LOGICAL_AND =>
    (stack_pop s.stack).bind fun p2 =>
    (stack_pop p2.2).bind fun p1 =>
    (stack_push p1.2 ⟨if p1.1.data ≠ 0 ∧ p2.1.data ≠ 0 then 1 else 0, .VAR_TYPE_INT, false⟩).bind
      fun st => .ok { s with stack := st }
  | .INST_LOGICAL_OR =>
    (stack_pop s.stack).bind fun p2 =>
    (stack_pop p2.2).bind fun p1 =>
    (stack_push p1.2 ⟨if p1.1.data ≠ 0 ∨ p2.1.data ≠ 0 then 1 else 0, .VAR_TYPE_INT, false⟩).bind
      fun st => .ok { s with stack := st }
  | .INST_IF =>
    (stack_pop s.stack).bind fun p =>
    if p.1.data ≠ 0 then .ok { s with stack := p.2, found_solution_for_if_block := true }
    else
      let s1 := { s with stack := p.2, found_solution_for_if_block := false }
      match if_scan s.program (s.program.length + 1) s.inst_ptr 0 with
      | some j => .ok { s1 with inst_ptr := j }
      | none => .ok s1
  | .INST_ELSE =>
    if s.found_solution_for_if_block then .ok s
    else
      match if_scan s.program (s.program.length + 1) s.inst_ptr 0 with
      | some j => .ok { s with inst_ptr := j }
      | none => .ok s
  | .INST_ELIF =>
    if s.found_solution_for_if_block then .ok s
    else
      match if_scan s.program (s.program.length + 1) s.inst_ptr 0 with
      | some j => .ok { s with inst_ptr := j }
      | none => .ok s
  | .INST_ENDIF => .ok s
  | .INST_WHILE =>
    (stack_pop s.stack).bind fun p =>
    let s1 := { s with stack := p.2 }
    if p.1.data = 0 then
      match while_scan s.program (s.inst_ptr + 1) s.inst_ptr 0 with
      | some j => .ok { s1 with inst_ptr := j }
      | none => .ok s1
    else .ok s1
  | .INST_RUN_WHILE => .ok s
  | .INST_END_WHILE =>
    match while_scan s.program (s.inst_ptr + 1) s.inst_ptr 0 with
    | some j => .ok { s with inst_ptr := j }
    | none => .ok s
  | .INST_PRINT =>
    (stack_pop s.stack).bind fun p =>
    (print_value p.1 false).bind fun ev =>
    .ok { s with stack := p.2, output := s.output ++ [ev] }
  | .INST_PRINTLN =>
    (stack_pop s.stack).bind fun p =>
    (print_value p.1 true).bind fun ev =>
    .ok { s with stack := p.2, output := s.output ++ [ev] }
  | .INST_JUMP =>
    let j := (readTok s.program s.inst_ptr).val.data % U32
    if s.program.length ≤ j then .err .ERR_INVALID_JUMP
    else .ok { s with inst_ptr := j }
  | .INST_ADD_VAR_TO_STACKFRAME =>
    (stack_pop s.stack).bind fun p =>
    if STACKFRAME_CAP ≤ s.stackframe.length then .ub
    else .ok { s with stack := p.2,
                      stackframe := s.stackframe ++ [⟨p.1, s.stackframe.length⟩] }
  | .INST_ASSIGN =>
    (stack_pop s.stack).bind fun p =>
    match s.stackframe.getLast? with
    | none => .ub
    | some fv =>
      let li := s.stackframe.length - 1
      match fv.val.var_type with
      | .VAR_TYPE_INT =>
        .ok { s with stack := p.2,
                     stackframe := frame_write s.stackframe li { fv.val with data := p.1.data } }
      | .VAR_TYPE_FLOAT =>
        .ok { s with stack := p.2,
                     stackframe := frame_write s.stackframe li
                       { fv.val with data := splice32 fv.val.data p.1.data } }
      | .VAR_TYPE_DOUBLE =>
        .ok { s with stack := p.2,
                     stackframe := frame_write s.stackframe li { fv.val with data := p.1.data } }
      | .VAR_TYPE_CHAR =>
        .ok { s with stack := p.2,
                     stackframe := frame_write s.stackframe li { fv.val with data := p.1.data } }
      | .VAR_TYPE_STR =>
        (if fv.val.heap_ptr then heap_free s.heap fv.val else .ok s.heap).bind fun h =>
        .ok { s with stack := p.2, heap := h,
                     stackframe := frame_write s.stackframe li
                       { fv.val with data := p.1.data, heap_ptr := false } }
      | _ => .err .ERR_INVALID_DATA_TYPE
  | .INST_VAR_USAGE =>
    match s.stackframe.getLast? with
    | none => .ub
    | some fv =>
      (frame_read s.stackframe fv.frame_index).bind fun v =>
      (stack_push s.stack v).bind fun st => .ok { s with stack := st }
  | .INST_VAR_REASSIGN =>
    match s.stackframe.getLast? with
    | none => .ub
    | some fv0 =>
      let vi := fv0.frame_index
      (stack_pop s.stack).bind fun p =>
      if h : vi < s.stackframe.length then
        let fv := s.stackframe.get ⟨vi, h⟩
        match p.1.var_type with
        | .VAR_TYPE_INT =>
          .ok { s with stack := p.2,
                       stackframe := frame_write s.stackframe vi { fv.val with data := p.1.data } }
        | .VAR_TYPE_FLOAT =>
          .ok { s with stack := p.2,
                       stackframe := frame_write s.stackframe vi
                         { fv.val with data := splice32 fv.val.data p.1.data } }
        | .VAR_TYPE_DOUBLE =>
          .ok { s with stack := p.2,
                       stackframe := frame_write s.stackframe vi { fv.val with data := p.1.data } }
        | .VAR_TYPE_CHAR =>
          .ok { s with stack := p.2,
                       stackframe := frame_write s.stackframe vi { fv.val with data := p.1.data } }
        | .VAR_TYPE_STR =>
          (if fv.val.heap_ptr then heap_free s.heap fv.val else .ok s.heap).bind fun hp =>
          .ok { s with stack := p.2, heap := hp,
                       stackframe := frame_write s.stackframe vi
                         { fv.val with data := p.1.data, heap_ptr := false } }
        | _ => .err .ERR_INVALID_DATA_TYPE
      else .ub
  | .INST_HEAP_ALLOC =>
    (stack_pop s.stack).bind fun p =>
    let vt := (readTok s.program s.inst_ptr).val.var_type
    (heap_alloc s.heap p.2 vt p.1.data).bind fun r =>
    .ok { s with heap := r.1, stack := r.2 }
  | .INST_HEAP_FREE =>
    (stack_pop s.stack).bind fun p =>
    (heap_free s.heap p.1).bind fun h => .ok { s with stack := p.2, heap := h }
  | .INST_PTR_GET_I =>
    (stack_pop s.stack).bind fun pp =>
    (stack_pop pp.2).bind fun pi =>
    (ptr_get_i s.heap pi.2 pp.1 (pi.1.data % U32)).bind fun st =>
    .ok { s with stack := st }
  | .INST_PTR_SET_I =>
    (stack_pop s.stack).bind fun pp =>
    (stack_pop pp.2).bind fun pi =>
    (stack_pop pi.2).bind fun pd =>
    (ptr_set_i s.heap pp.1 (pi.1.data % U32) pd.1).bind fun h =>
    .ok { s with stack := pd.2, heap := h }
  | .INST_INT_TYPE =>
    let p := (readTok s.program s.inst_ptr).val.data % U32
    (stack_push s.stack ⟨sext32 p, .VAR_TYPE_INT, false⟩).bind fun st =>
    .ok { s with stack := st }
  | .INST_FLOAT_TYPE =>
    match f32_to_u64 ((readTok s.program s.inst_ptr).val.data % U32) with
    | none => .ub
    | some n =>
      (stack_push s.stack ⟨n, .VAR_TYPE_FLOAT, false⟩).bind fun st =>
      .ok { s with stack := st }
  | .INST_DOUBLE_TYPE =>
    match f64_to_u64 ((readTok s.program s.inst_ptr).val.data) with
    | none => .ub
    | some n =>
      (stack_push s.stack ⟨n, .VAR_TYPE_DOUBLE, false⟩).bind fun st =>
      .ok { s with stack := st }
  | .INST_CHAR_TYPE =>
    let p := (readTok s.program s.inst_ptr).val.data % U8
    (stack_push s.stack ⟨sext8 p, .VAR_TYPE_CHAR, false⟩).bind fun st =>
    .ok { s with stack := st }
  | .INST_STR_TYPE =>
    -- The operand is a `char *` to the literal; only its length `strlen(...)`
    -- shapes the machine state (the allocation size), so the token's payload
    -- stands for that length here.  The memcpy'd bytes are not tracked.
    let len := (readTok s.program s.inst_ptr).val.data
    (heap_alloc s.heap s.stack .VAR_TYPE_STR len).bind fun r =>
    .ok { s with heap := r.1, stack := r.2 }
  | .INST_MACRO_OP =>
    let mi := (readTok s.program s.inst_ptr).val.data % U32
    if PROGRAM_CAP ≤ s.mpositions.length then .ub
    else .ok { s with mpositions := s.mpositions ++ [mi] }
  | .INST_MACRO_DEF => .ok s
  | .INST_MACRO_END => .ok s
  | .INST_MACRO_USAGE => .ok s
  | .INST_FUNC_DEF => .ok s
  | .INST_FUNC_CALL => .ok s
  | .INST_FUNC_RET => .ok s
  | .INST_STRUCT_DEF => .ok s
  | .INST_STRUCT_INIT => .ok s
  | .INST_STRUCT_ACCESS => .ok s
  | .INST_TABLE_CREATE => .ok s
  | .INST_TABLE_INSERT => .ok s
  | .INST_TABLE_SELECT => .ok s
  | .INST_TABLE_UPDATE => .ok s
  | .INST_TABLE_DELETE => .ok s
  | .INST_SQL_QUERY => .ok s
  | .INST_CONCAT_STR => .ok s
  | .INST_CHART_PLOT => .ok s
  | .INST_EXPORT_DATA => .ok s
  | .INST_STAT_MEAN => .ok s
  | .INST_STAT_MEDIAN => .ok s
  | .INST_STAT_MODE => .ok s
  | .INST_STAT_STD_DEV => .ok s
  | .INST_REGRESSION => .ok s
  | .INST_CLUSTER => .ok s
  | .INST_TIME_SERIES => .ok s
  | .INST_API_REQUEST => .ok s
  | .INST_DB_CONNECT => .ok s
  | .INST_DB_QUERY => .ok s
  | .INST_ETL_EXTRACT => .ok s
  | .INST_ETL_TRANSFORM => .ok s
  | .INST_ETL_LOAD => .ok s
  | .INST_DATA_VALIDATE => .ok s
  | .INST_SCRIPT_EXECUTE => .ok s
  | .INST_JOB_SCHEDULE => .ok s
  | .INST_CUSTOM_AGGREGATE => .ok s
  | .INST_CUSTOM_TRANSFORM => .ok s
  | .INST_PARALLEL_EXEC => .ok s
  | .INST_ASYNC_EXEC => .ok s
  | .INST_ACCESS_CONTROL => .ok s
  | .INST_ENCRYPT_DATA => .ok s
  | .INST_THEN => .err .ERR_ILLEGAL_INSTRUCTION

/-- Result of one iteration of the dispatch loop. -/
inductive StepResult where
  | ok (s : ProgramState)
  | err (e : Error) (out : List OutEvent)
  | ub
deriving DecidableEq, Repr

/-- One full iteration of the `while (inst_ptr < program_size)` loop body:
fetch with post-increment (`program[state->inst_ptr++]`), run the switch,
then the trailing `state->inst_ptr++`.  On a reported error the output
produced so far accompanies the error kind. -/
def execStep (s : ProgramState) : StepResult :=
  let tok := readTok s.program s.inst_ptr
  let s1 := { s with inst_ptr := s.inst_ptr + 1 }
  match exec_inst tok s1 with
  | .ok s2 => .ok { s2 with inst_ptr := s2.inst_ptr + 1 }
  | .err e => .err e s.output
  | .ub => .ub

/-- Result of a whole run of `execute_program`. -/
inductive RunResult where
  | done (s : ProgramState)
  | err (e : Error) (out : List OutEvent)
  | ub
  | fuelOut
deriving DecidableEq, Repr

/-- `execute_program` of nix.c, fuel-bounded: iterate `execStep` while
`inst_ptr < program_size`. -/
def execute_program : Nat → ProgramState → RunResult
  | 0, _ => .fuelOut
  | fuel + 1, s =>
    if s.inst_ptr < s.program.length then
      match execStep s with
      | .ok s' => execute_program fuel s'
      | .err e out => .err e out
      | .ub => .ub
    else .done s

/-- Initial machine state for a given program (everything zeroed by the
`memset` in `main`). -/
def initState (prog : List Token) : ProgramState :=
  ⟨[], [], [], [], false, prog, 0, []⟩

/-- Output of a normally terminated run. -/
def run_output : RunResult → Option (List OutEvent)
  | .done s => some s.output
  | _ => none

/-! Derived predicates and small builders used by the claim statements. -/

/-- Shorthand for an integer-tagged stack value. -/
def intVal (n : Nat) : RuntimeValue := ⟨n, .VAR_TYPE_INT, false⟩

/-- A token in an operand slot: under the two-token stride of the dispatch
loop such slots are never fetched as opcodes; INST_THEN is moreover inert for
both block scanners, so it doubles as a canary (executing it would raise
ERR_ILLEGAL_INSTRUCTION). -/
def padTok (n : Nat) : Token := ⟨.INST_THEN, intVal n⟩

/-- Opcode families quantified over by claim C1: arithmetic, comparison,
logic, literal load, print, stack, variable and heap opcodes — every
instruction of the dispatch switch that never assigns `inst_ptr`. -/
def isNonBranching : Inst → Bool
  | .INST_STACK_PUSH | .INST_STACK_PREV | .INST_STACK_POP
  | .INST_PLUS | .INST_MINUS | .INST_MUL | .INST_DIV | .INST_MOD
  | .INST_EQ | .INST_NEQ | .INST_GT | .INST_LT | .INST_GEQ | .INST_LEQ
  | .INST_LOGICAL_AND | .INST_LOGICAL_OR
  | .INST_PRINT | .INST_PRINTLN
  | .INST_ADD_VAR_TO_STACKFRAME | .INST_ASSIGN | .INST_VAR_USAGE | .INST_VAR_REASSIGN
  | .INST_HEAP_ALLOC | .INST_HEAP_FREE | .INST_PTR_GET_I | .INST_PTR_SET_I
  | .INST_INT_TYPE | .INST_FLOAT_TYPE | .INST_DOUBLE_TYPE | .INST_CHAR_TYPE
  | .INST_STR_TYPE => true
  | _ => false

/-- The analytic/ETL/network opcode family of claim C9 — the cases of the
dispatch switch whose entire body is `{ break; }` (nix.c lines 1278-1401). -/
def isStubOpcode : Inst → Bool
  | .INST_TABLE_CREATE | .INST_TABLE_INSERT | .INST_TABLE_SELECT
  | .INST_TABLE_UPDATE | .INST_TABLE_DELETE
  | .INST_SQL_QUERY | .INST_CONCAT_STR | .INST_CHART_PLOT | .INST_EXPORT_DATA
  | .INST_STAT_MEAN | .INST_STAT_MEDIAN | .INST_STAT_MODE | .INST_STAT_STD_DEV
  | .INST_REGRESSION | .INST_CLUSTER | .INST_TIME_SERIES
  | .INST_API_REQUEST | .INST_DB_CONNECT | .INST_DB_QUERY
  | .INST_ETL_EXTRACT | .INST_ETL_TRANSFORM | .INST_ETL_LOAD
  | .INST_DATA_VALIDATE | .INST_SCRIPT_EXECUTE | .INST_JOB_SCHEDULE
  | .INST_CUSTOM_AGGREGATE | .INST_CUSTOM_TRANSFORM
  | .INST_PARALLEL_EXEC | .INST_ASYNC_EXEC
  | .INST_ACCESS_CONTROL | .INST_ENCRYPT_DATA => true
  | _ => false

/-- Two's-complement reading of a 64-bit pattern (how the spec's "integer
value" relates to the stored `size_t` field). -/
def to_signed (n : Nat) : Int := if n < 2 ^ 63 then (n : Int) else (n : Int) - (U64 : Int)

/-- The integer quotient of C (`/` on signed operands truncates toward
zero). -/
def c_quot (a b : Int) : Int := a.sign * b.sign * ((a.natAbs / b.natAbs : Nat) : Int)

/-! Concrete programs and states used by claim witnesses and
counterexamples. -/

/-- Program for the C1 counterexample: one integer literal load (operand 5 in
the following slot) and a println. -/
def c1_cex_prog : List Token :=
  [⟨.INST_INT_TYPE, zeroVal⟩, padTok 5, ⟨.INST_PRINTLN, zeroVal⟩, padTok 0]

/-- State for the C1 witness: INST_STACK_POP over a one-element stack. -/
def c1_wit_state : ProgramState :=
  { initState [⟨.INST_STACK_POP, zeroVal⟩, padTok 0] with stack := [intVal 3] }

/-- Successor state of `c1_wit_state` after one dispatch-loop iteration. -/
def c1_wit_next : ProgramState := { c1_wit_state with stack := [], inst_ptr := 2 }

/-- Loop program for C2: push 0, while, loop body (push 7; println),
end_while. -/
def c2_prog : List Token :=
  [⟨.INST_INT_TYPE, zeroVal⟩, padTok 0, ⟨.INST_WHILE, zeroVal⟩, padTok 0,
   ⟨.INST_INT_TYPE, zeroVal⟩, padTok 7, ⟨.INST_PRINTLN, zeroVal⟩, padTok 0,
   ⟨.INST_END_WHILE, zeroVal⟩, padTok 0]

/-- Conditional chain for C3: push 0, if, then the elif arm (its condition
push 1 precedes the elif token) whose branch is push 99; println, endif. -/
def c3_prog : List Token :=
  [⟨.INST_INT_TYPE, zeroVal⟩, padTok 0, ⟨.INST_IF, zeroVal⟩, padTok 0,
   ⟨.INST_INT_TYPE, zeroVal⟩, padTok 1, ⟨.INST_ELIF, zeroVal⟩, padTok 0,
   ⟨.INST_INT_TYPE, zeroVal⟩, padTok 99, ⟨.INST_PRINTLN, zeroVal⟩, padTok 0,
   ⟨.INST_ENDIF, zeroVal⟩, padTok 0]

/-- One-slot integer heap whose only slot has been freed (data == NULL). -/
def freedIntHeap : List HeapValue := [⟨none, .VAR_TYPE_INT⟩]

/-- State for the C5 counterexample: INST_DIV over the encodings of the
signed pair a = -5 (pattern 2^64 - 5) and b = 2 (top of stack). -/
def c5_cex_state : ProgramState :=
  { initState [⟨.INST_DIV, zeroVal⟩, padTok 0] with
      stack := [intVal 2, intVal (U64 - 5)] }

/-- State for the C5 witness: INST_DIV over 7 and 2. -/
def c5_wit_state : ProgramState :=
  { initState [⟨.INST_DIV, zeroVal⟩, padTok 0] with stack := [intVal 2, intVal 7] }

/-- Program for C8: float literals 3.5 (bits 0x40600000 = 1080033280) and
0.25 (bits 0x3E800000 = 1048576000), plus, println. -/
def c8_prog : List Token :=
  [⟨.INST_FLOAT_TYPE, zeroVal⟩, padTok 1080033280,
   ⟨.INST_FLOAT_TYPE, zeroVal⟩, padTok 1048576000,
   ⟨.INST_PLUS, zeroVal⟩, padTok 0, ⟨.INST_PRINTLN, zeroVal⟩, padTok 0]

/-- State for the C10 witness: INST_STACK_PREV over a one-element stack. -/
def c10_wit_state : ProgramState :=
  { initState [⟨.INST_STACK_PREV, zeroVal⟩, padTok 0] with stack := [intVal 9] }

/-- State for the C10 counterexample: INST_STACK_PREV over a FULL stack
(256 elements, the operand-stack capacity). -/
def c10_cex_state : ProgramState :=
  { initState [⟨.INST_STACK_PREV, zeroVal⟩, padTok 0] with
      stack := List.replicate 256 (intVal 7) }

/-! Helper lemmas. -/

/-- Computation rule: binding after a successful helper call. -/
theorem FnResult.bind_ok {α β : Type} (a : α) (f : α → FnResult β) :
    FnResult.bind (.ok a) f = f a := rfl

/-- Computation rule: an error propagates through the bind. -/
theorem FnResult.bind_err {α β : Type} (e : Error) (f : α → FnResult β) :
    FnResult.bind (.err e) f = .err e := rfl

/-- Computation rule: undefined behaviour propagates through the bind. -/
theorem FnResult.bind_ub {α β : Type} (f : α → FnResult β) :
    FnResult.bind .ub f = .ub := rfl

/-- Inversion principle for `FnResult.bind` hitting `ok`. -/
theorem FnResult.bind_eq_ok {α β : Type} {e : FnResult α} {f : α → FnResult β} {b : β} :
    e.bind f = .ok b ↔ ∃ a, e = .ok a ∧ f a = .ok b := by
  cases e <;> simp [FnResult.bind]

set_option maxHeartbeats 2000000 in
/-- No case of the dispatch switch in the C1 families ever assigns
`inst_ptr`: a successful `exec_inst` on such an opcode returns a state with
the instruction pointer it received. -/
theorem exec_inst_nonbranching_ptr (tok : Token) (s s₂ : ProgramState)
    (h : isNonBranching tok.inst = true)
    (hok : exec_inst tok s = .ok s₂) : s₂.inst_ptr = s.inst_ptr := by
  obtain ⟨inst, val⟩ := tok
  cases inst <;> simp only [isNonBranching] at h <;>
    simp only [exec_inst] at hok
  all_goals
    repeat'
      first
      | simp only [FnResult.bind_eq_ok, FnResult.ok.injEq] at hok
      | obtain ⟨a, ha, hok⟩ := hok
      | split at hok
  all_goals
    first
    | exact FnResult.noConfusion hok
    | (subst hok; rfl)
    | rfl
    | aesop

/-! Claim theorems. -/

/-- C1, counterexample to the claim as stated: the claim says that after a
non-branching instruction at index i the next instruction fetched is the one
at index i + 1.  On the concrete program `c1_cex_prog` the literal load at
index 0 succeeds and leaves the instruction pointer at 2, so the next fetch
is index 2, not 1. -/
theorem c1_counterexample :
    ¬ (∀ s s' : ProgramState,
        isNonBranching (readTok s.program s.inst_ptr).inst = true →
        execStep s = .ok s' → s'.inst_ptr = s.inst_ptr + 1) := by
  intro hclaim
  have h2 := hclaim (initState c1_cex_prog)
      { initState c1_cex_prog with stack := [intVal 5], inst_ptr := 2 }
      (by decide) (by decide)
  exact absurd h2 (by decide)

/-- C1 (amended): for every program and every non-branching instruction
(arithmetic, comparison, logic, literal load, print, stack, variable and
heap opcodes), a successful dispatch-loop iteration advances the instruction
pointer by exactly TWO tokens — one for the fetch post-increment
(`program[state->inst_ptr++]`) and one for the trailing `state->inst_ptr++`
of the loop body — so the opcode at token index i reads its inline operand
at index i + 1 and the next instruction fetched is the one at index
i + 2. -/
theorem c1_theorem (s s' : ProgramState)
    (hnb : isNonBranching (readTok s.program s.inst_ptr).inst = true)
    (hok : execStep s = .ok s') : s'.inst_ptr = s.inst_ptr + 2 := by
  simp only [execStep] at hok
  split at hok
  case h_1 s₂ heq =>
    cases hok
    have hp := exec_inst_nonbranching_ptr _ _ _ hnb heq
    simp only [hp]
  case h_2 => exact StepResult.noConfusion hok
  case h_3 => exact StepResult.noConfusion hok

/-- Witness for C1: one INST_STACK_POP iteration on a concrete state moves
the instruction pointer from 0 to 2. -/
theorem c1_witness :
    execStep c1_wit_state = .ok c1_wit_next ∧
    c1_wit_next.inst_ptr = c1_wit_state.inst_ptr + 2 :=
  ⟨by decide, c1_theorem c1_wit_state c1_wit_next (by decide) (by decide)⟩

/-- C2: the claim says a false condition at `while` skips the loop body
(resuming after the matching `end_while`, with no body instruction
executing) and that `end_while` jumps back to the loop header.  The code
instead scans BACKWARD in both cases: on `c2_prog` the condition 0 is
popped, the backward scan finds nothing, execution falls INTO the body and
prints 7, and `end_while` resumes right after itself, terminating the run
normally with output [7] instead of the claimed empty output. -/
theorem c2_theorem :
    run_output (execute_program 32 (initState c2_prog)) = some [⟨.VAR_TYPE_INT, 7, true⟩] ∧
    some [(⟨.VAR_TYPE_INT, 7, true⟩ : OutEvent)] ≠ some ([] : List OutEvent) := by
  exact ⟨by decide, by decide⟩

/-- C3: the claim says a same-depth `elif` closes the false branch of an
`if`, so on `c3_prog` (if with condition 0, elif with condition 1) the elif
branch should run and print 99.  In the code the forward scan both
decrements and increments on ELIF (net zero), so the ELIF at the same depth
is never recognised as a boundary: the scan runs on to the ENDIF and the
whole chain is skipped, producing no output at all. -/
theorem c3_theorem :
    run_output (execute_program 32 (initState c3_prog)) = some [] ∧
    some ([] : List OutEvent) ≠ some [(⟨.VAR_TYPE_INT, 99, true⟩ : OutEvent)] := by
  exact ⟨by decide, by decide⟩

/-- C4: the claim says every get/set/free on a freed heap reference fails
with InvalidPointer (double free is an error).  In the code `heap_free` only
checks the reference flag and the index range, so freeing the already-freed
slot 0 SUCCEEDS silently (`free(NULL)` is a no-op), and `ptr_get_i` /
`ptr_set_i` on the freed slot dereference the NULL buffer (undefined
behaviour) instead of reporting ERR_INVALID_PTR. -/
theorem c4_theorem :
    heap_free [⟨some [0], .VAR_TYPE_INT⟩] ⟨0, .VAR_TYPE_INT, true⟩ = .ok freedIntHeap ∧
    heap_free freedIntHeap ⟨0, .VAR_TYPE_INT, true⟩ = .ok freedIntHeap ∧
    ptr_get_i freedIntHeap [] ⟨0, .VAR_TYPE_INT, true⟩ 0 = .ub ∧
    ptr_set_i freedIntHeap ⟨0, .VAR_TYPE_INT, true⟩ 0 (intVal 1) = .ub := by
  refine ⟨by decide, by decide, by decide, by decide⟩

/-- C5, counterexample to the claim as stated: the claim promises the
integer quotient a / b for every integer pair with b ≠ 0.  With a = -5
(64-bit pattern 2^64 - 5) and b = 2 the code divides the raw unsigned
patterns, leaving 2^63 - 3 on top of the stack, which is NOT the
two's-complement encoding of the C integer quotient -5 / 2 = -2 (it reads
as the huge positive value 2^63 - 3). -/
theorem c5_counterexample :
    execStep c5_cex_state =
      .ok { c5_cex_state with stack := [intVal (2 ^ 63 - 3)], inst_ptr := 2 } ∧
    to_signed (U64 - 5) = -5 ∧ to_signed 2 = 2 ∧
    c_quot (-5) 2 = -2 ∧ to_signed (2 ^ 63 - 3) ≠ -2 := by
  refine ⟨by decide, by decide, by decide, by decide, by decide⟩

/-- C5 (amended): INST_DIV pops the divisor first and the dividend second
(second-popped is the left operand) and computes the quotient of the raw
64-bit patterns as UNSIGNED division, pushing it with the integer tag;
b = 0 fails with ERR_INVALID_DATA_TYPE rather than crashing.  The unsigned
quotient agrees with the claimed signed integer quotient exactly when both
operands are nonnegative in the signed reading (patterns below 2^63). -/
theorem c5_theorem (s : ProgramState) (a b : Nat) (rest : List RuntimeValue)
    (hfetch : (readTok s.program s.inst_ptr).inst = .INST_DIV)
    (hstack : s.stack = ⟨b, .VAR_TYPE_INT, false⟩ :: ⟨a, .VAR_TYPE_INT, false⟩ :: rest)
    (hrest : rest.length < 256) :
    (b = 0 → execStep s = .err .ERR_INVALID_DATA_TYPE s.output) ∧
    (b ≠ 0 →
      execStep s = .ok { s with stack := ⟨a / b, .VAR_TYPE_INT, false⟩ :: rest,
                                inst_ptr := s.inst_ptr + 2 } ∧
      (a < 2 ^ 63 → b < 2 ^ 63 →
        to_signed (a / b) = c_quot (to_signed a) (to_signed b))) := by
  rcases hre : readTok s.program s.inst_ptr with ⟨ti, tv⟩
  rw [hre] at hfetch
  simp only at hfetch
  subst hfetch
  constructor
  · intro hb0
    simp only [execStep, hre, exec_inst]
    simp [hstack, stack_pop, exec_div, hb0, FnResult.bind]
  · intro hb
    refine ⟨?_, ?_⟩
    · simp only [execStep, hre, exec_inst]
      have h1 : rest.length ≠ STACK_CAP := by simp only [STACK_CAP]; omega
      have h2 : ¬ (STACK_CAP < rest.length) := by simp only [STACK_CAP]; omega
      simp [hstack, stack_pop, exec_div, hb, stack_push, h1, h2, FnResult.bind]
    · intro ha hb63
      have hq : a / b < 2 ^ 63 := lt_of_le_of_lt (Nat.div_le_self a b) ha
      unfold to_signed c_quot
      rw [if_pos hq, if_pos ha, if_pos hb63]
      rcases Nat.eq_zero_or_pos a with rfl | hap
      · simp
      · have hbp : 0 < b := Nat.pos_of_ne_zero hb
        have hsa : Int.sign (a : Int) = 1 := Int.sign_eq_one_of_pos (by exact_mod_cast hap)
        have hsb : Int.sign (b : Int) = 1 := Int.sign_eq_one_of_pos (by exact_mod_cast hbp)
        rw [hsa, hsb]
        simp

/-- Witness for C5: dividing 7 by 2 leaves 3 on the stack and agrees with
the signed integer quotient. -/
theorem c5_witness :
    execStep c5_wit_state =
      .ok { c5_wit_state with stack := [intVal 3], inst_ptr := 2 } ∧
    to_signed (7 / 2) = c_quot (to_signed 7) (to_signed 2) := by
  have h := (c5_theorem c5_wit_state 7 2 [] (by decide) (by decide) (by decide)).2 (by decide)
  exact ⟨h.1, h.2 (by decide) (by decide)⟩

/-- C6: the claim says allocate(Int, 4) creates a slot sized for 4 integer
elements with a set/get round-trip on indices 0..3.  The code's `heap_alloc`
mallocs `sizeof(int)` — exactly ONE element — ignoring the requested count
for every non-string type: the new slot's buffer has length 1, a
`ptr_set_i` at index 1 writes out of bounds (undefined behaviour), and only
index 0 round-trips. -/
theorem c6_theorem :
    heap_alloc [] [] .VAR_TYPE_INT 4 =
      .ok ([⟨some [0], .VAR_TYPE_INT⟩], [⟨0, .VAR_TYPE_INT, true⟩]) ∧
    ptr_set_i [⟨some [0], .VAR_TYPE_INT⟩] ⟨0, .VAR_TYPE_INT, true⟩ 1 (intVal 7) = .ub ∧
    ptr_set_i [⟨some [0], .VAR_TYPE_INT⟩] ⟨0, .VAR_TYPE_INT, true⟩ 0 (intVal 7) =
      .ok [⟨some [7], .VAR_TYPE_INT⟩] ∧
    ptr_get_i [⟨some [7], .VAR_TYPE_INT⟩] [] ⟨0, .VAR_TYPE_INT, true⟩ 0 =
      .ok [intVal 7] := by
  refine ⟨by decide, by decide, by decide, by decide⟩

/-- C7: push fails with StackOverflow exactly when the stack holds
STACK_CAP = 256 elements; pop fails with StackUnderflow exactly when the
stack is empty; peek(k) fails with InvalidStackAccess exactly when
k ≥ size and otherwise returns the k-th element from the top without
removing it; and the one-instruction program [pop] on the empty stack fails
with StackUnderflow and produces no output. -/
theorem c7_theorem :
    (∀ (st : List RuntimeValue) (v : RuntimeValue),
        stack_push st v = .err .ERR_STACK_OVERFLOW ↔ st.length = STACK_CAP) ∧
    (∀ st : List RuntimeValue, stack_pop st = .err .ERR_STACK_UNDERFLOW ↔ st = []) ∧
    (∀ (st : List RuntimeValue) (k : Nat),
        stack_peak st k = .err .ERR_INVALID_STACK_ACCESS ↔ st.length ≤ k) ∧
    (∀ (st : List RuntimeValue) (k : Nat) (h : k < st.length),
        stack_peak st k = .ok (st.get ⟨k, h⟩)) ∧
    execute_program 2 (initState [⟨.INST_STACK_POP, zeroVal⟩]) =
      .err .ERR_STACK_UNDERFLOW [] := by
  refine ⟨?_, ?_, ?_, ?_, by decide⟩
  · intro st v
    simp only [stack_push]
    split_ifs with h1 h2 <;> simp_all
  · intro st
    cases st <;> simp [stack_pop]
  · intro st k
    simp only [stack_peak]
    split_ifs with h1 <;> simp_all
  · intro st k h
    simp [stack_peak, h]

/-- Witness for C7: peek(1) on a two-element stack returns the second
element from the top. -/
theorem c7_witness :
    stack_peak [intVal 4, intVal 6] 1 = .ok (intVal 6) ∧ (1 : Nat) < 2 :=
  ⟨c7_theorem.2.2.2.1 [intVal 4, intVal 6] 1 (by decide), by decide⟩

/-- C8: the claim requires native-width float storage and genuine
floating-point arithmetic.  The code converts the decoded float literal to
`size_t` (INST_FLOAT_TYPE stores `(size_t)float_val`, truncating 3.5 to 3
and 0.25 to 0) and INST_PLUS adds the integer payload fields, so
3.5 + 0.25 yields the float-tagged integer payload 3 — integer arithmetic
on truncated values, not any representation of 3.75. -/
theorem c8_theorem :
    f32_to_u64 1080033280 = some 3 ∧
    f32_to_u64 1048576000 = some 0 ∧
    run_output (execute_program 32 (initState c8_prog)) =
      some [⟨.VAR_TYPE_FLOAT, 3, true⟩] := by
  refine ⟨by decide, by decide, by decide⟩

/-- C9: the claim says executing an out-of-scope analytic/ETL/network
opcode fails with a dedicated "not implemented" outcome and never executes
as a silent no-op.  In the code every such case is `{ break; }`: one
dispatch-loop iteration on any stub opcode SUCCEEDS, leaves the whole state
unchanged apart from the two-token instruction-pointer advance, reports no
error and produces no output — a silent no-op. -/
theorem c9_theorem (s : ProgramState)
    (h : isStubOpcode (readTok s.program s.inst_ptr).inst = true) :
    execStep s = .ok { s with inst_ptr := s.inst_ptr + 2 } := by
  rcases hre : readTok s.program s.inst_ptr with ⟨ti, tv⟩
  rw [hre] at h
  simp only [execStep, hre]
  cases ti <;>
    first
    | rfl
    | exact Bool.noConfusion h

/-- Witness for C9: one INST_SQL_QUERY iteration from the initial state is a
silent no-op. -/
theorem c9_witness :
    execStep (initState [⟨.INST_SQL_QUERY, zeroVal⟩]) =
      .ok { initState [⟨.INST_SQL_QUERY, zeroVal⟩] with inst_ptr := 2 } :=
  c9_theorem (initState [⟨.INST_SQL_QUERY, zeroVal⟩]) (by decide)

set_option maxRecDepth 8192 in
/-- C10, counterexample to the claim as stated: the claim promises a
successful duplicate-top for EVERY non-empty stack, but on a full stack of
256 elements INST_STACK_PREV peeks the top and then `stack_push` fails with
ERR_STACK_OVERFLOW, so no successor state exists. -/
theorem c10_counterexample :
    ¬ (∀ (s : ProgramState) (v : RuntimeValue) (rest : List RuntimeValue),
        (readTok s.program s.inst_ptr).inst = .INST_STACK_PREV →
        s.stack = v :: rest →
        ∃ s', execStep s = .ok s' ∧ s'.stack = v :: v :: rest) := by
  intro hclaim
  obtain ⟨s', hs', _⟩ := hclaim c10_cex_state (intVal 7) (List.replicate 255 (intVal 7))
      (by decide) (by decide)
  rw [show execStep c10_cex_state = .err .ERR_STACK_OVERFLOW [] from by decide] at hs'
  exact StepResult.noConfusion hs'

/-- C10 (amended): on a non-empty stack BELOW capacity, INST_STACK_PREV
pushes a copy of the current top element (stack size grows by one, existing
elements unchanged, instruction pointer advances two tokens); on an empty
stack it fails with ERR_INVALID_STACK_ACCESS (from `stack_peak`, not
StackUnderflow); and on a full stack it fails with ERR_STACK_OVERFLOW. -/
theorem c10_theorem (s : ProgramState)
    (hfetch : (readTok s.program s.inst_ptr).inst = .INST_STACK_PREV) :
    (∀ v rest, s.stack = v :: rest → s.stack.length < STACK_CAP →
      execStep s = .ok { s with stack := v :: v :: rest, inst_ptr := s.inst_ptr + 2 }) ∧
    (s.stack = [] → execStep s = .err .ERR_INVALID_STACK_ACCESS s.output) := by
  rcases hre : readTok s.program s.inst_ptr with ⟨ti, tv⟩
  rw [hre] at hfetch
  simp only at hfetch
  subst hfetch
  constructor
  · intro v rest hst hlen
    rw [hst] at hlen
    simp only [execStep, hre, exec_inst]
    have h1 : ¬ (rest.length + 1 = STACK_CAP) := by
      simp only [STACK_CAP]; simp only [List.length_cons, STACK_CAP] at hlen; omega
    have h2 : ¬ (STACK_CAP < rest.length + 1) := by
      simp only [STACK_CAP]; simp only [List.length_cons, STACK_CAP] at hlen; omega
    simp [stack_peak, stack_push, hst, h1, h2, FnResult.bind]
  · intro hst
    simp only [execStep, hre, exec_inst]
    simp [stack_peak, hst, FnResult.bind]

set_option maxRecDepth 4096 in
/-- Witness for C10: duplicating the top of the one-element stack [9]. -/
theorem c10_witness :
    execStep c10_wit_state =
      .ok { c10_wit_state with stack := intVal 9 :: intVal 9 :: [],
                               inst_ptr := c10_wit_state.inst_ptr + 2 } :=
  (c10_theorem c10_wit_state (by decide)).1 (intVal 9) [] (by decide) (by decide)

end Nix

